import Mathlib

/-!
Verification of the mlflow-training scripts.

The repository consists of five standalone Python training scripts
(Legendary_pokemon_predictor.py, Pokemon_detective.py, example1_basic.py,
example2_hyperparameter_tuning.py, example3_model_registry.py).  Each script
is a straight-line sequence of calls into pandas, scikit-learn and MLflow.
We embed each script as the trace of externally visible operations it
performs, transcribed line by line from the source, plus small semantic
models of the data-manipulation steps the scripts perform themselves
(the Total_Stats derived column, the impostors filter, the results table
built from a copy of X_test, and the model-object discipline).
-/

/-- A parameter value as the scripts pass them to the tracking client. -/
inductive PVal where
  | nat (n : Nat)
  | str (s : String)
  | bool (b : Bool)
deriving DecidableEq

/-- One externally visible operation of a script, in source order. -/
inductive Event where
  | setTrackingUri (uri : String)
  | setExperiment (name : String)
  | printLine
  | fetchData (source : String)
  | deriveColumn (name : String)
  | selectFeatures (cols : List String)
  | selectTarget (col : String)
  | split (testNum : Nat) (testDen : Nat) (seed : Nat)
  | startRun (name : String)
  | configure (key : String) (v : Nat)
  | logParam (key : String) (v : PVal)
  | fit (nEstimators : Nat) (maxDepth : Nat) (randomState : Option Nat)
  | predict
  | score (metric : String)
  | logMetric (key : String)
  | confusionPlot
  | savePlot (file : String)
  | logArtifact (file : String)
  | logModel
  | logText (file : String)
  | getRunId
  | registerModel (name : String)
  | loadModel (file : String)
  | copyTable
  | setColumnEv (key : String)
  | filterRows
deriving DecidableEq

/-- A trace step: the event together with whether the source wraps the
corresponding statement in a try/except handler. -/
structure Step where
  ev : Event
  caught : Bool
deriving DecidableEq

/-- A statement outside any try/except: its exceptions propagate. -/
def stp (e : Event) : Step := ⟨e, false⟩

/-- A statement inside a try/except block: its exceptions are caught. -/
def stc (e : Event) : Step := ⟨e, true⟩

/-- The pokemon.csv gist URL used by both pokemon scripts. -/
def pokemonUrl : String :=
  "https://gist.githubusercontent.com/armgilles/194bcff35001e7eb53a2a8b441e8b2c6/raw/92200bc0a673d5ce2110aaad4544ed6c4010f687/pokemon.csv"

/-- The six stat columns selected as features in Legendary_pokemon_predictor.py. -/
def legendaryFeatures : List String :=
  ["HP", "Attack", "Defense", "Sp. Atk", "Sp. Def", "Speed"]

/-- Trace of Legendary_pokemon_predictor.py, transcribed line by line. -/
def legendaryTrace : List Step :=
  [stp (.setTrackingUri "http://localhost:5000"),
   stp (.setExperiment "Pokemon_Legendary_Predictor"),
   stp .printLine,
   stp .printLine,
   stp .printLine,
   stp (.fetchData pokemonUrl),
   stp (.selectFeatures legendaryFeatures),
   stp (.selectTarget "Legendary"),
   stp (.split 2 10 42),
   stp (.startRun "Legendary_Hunter_v1"),
   stp (.configure "n_estimators" 100),
   stp (.configure "max_depth" 15),
   stp (.logParam "n_estimators" (.nat 100)),
   stp (.logParam "max_depth" (.nat 15)),
   stp (.logParam "features_used" (.str "['HP', 'Attack', 'Defense', 'Sp. Atk', 'Sp. Def', 'Speed']")),
   stp .printLine,
   stp (.fit 100 15 (some 42)),
   stp .predict,
   stp (.score "accuracy"),
   stp (.score "precision"),
   stp (.score "recall"),
   stp .printLine,
   stp (.logMetric "accuracy"),
   stp (.logMetric "precision"),
   stp (.logMetric "recall"),
   stp (.score "confusion_matrix"),
   stp .confusionPlot,
   stp (.savePlot "confusion_matrix.png"),
   stp (.logArtifact "confusion_matrix.png"),
   stp .logModel,
   stp .printLine]

/-- The eight feature columns selected in Pokemon_detective.py. -/
def detectiveFeatures : List String :=
  ["HP", "Attack", "Defense", "Sp. Atk", "Sp. Def", "Speed", "Generation", "Total_Stats"]

/-- Trace of Pokemon_detective.py, transcribed line by line. -/
def pokemonDetectiveTrace : List Step :=
  [stp (.fetchData pokemonUrl),
   stp (.deriveColumn "Total_Stats"),
   stp (.selectFeatures detectiveFeatures),
   stp (.selectTarget "Legendary"),
   stp (.split 2 10 42),
   stp .printLine,
   stp (.loadModel "my_model.pkl"),
   stp .predict,
   stp .copyTable,
   stp (.setColumnEv "Actual"),
   stp (.setColumnEv "Predicted"),
   stp (.setColumnEv "Name"),
   stp .printLine,
   stp .filterRows,
   stp .printLine]

/-- Trace of example1_basic.py, transcribed line by line. -/
def example1Trace : List Step :=
  [stp (.setTrackingUri "http://localhost:5000"),
   stp (.setExperiment "iris_classification_demo"),
   stp (.fetchData "load_iris"),
   stp (.split 2 10 42),
   stp (.startRun "rf_classifier_v1"),
   stp (.configure "n_estimators" 100),
   stp (.configure "max_depth" 10),
   stp (.configure "random_state" 42),
   stp (.logParam "n_estimators" (.nat 100)),
   stp (.logParam "max_depth" (.nat 10)),
   stp (.logParam "random_state" (.nat 42)),
   stp (.fit 100 10 (some 42)),
   stp .predict,
   stp (.score "accuracy"),
   stp (.score "precision"),
   stp (.score "recall"),
   stp (.logMetric "accuracy"),
   stp (.logMetric "precision"),
   stp (.logMetric "recall"),
   stp .logModel,
   stp (.logText "training_log.txt"),
   stp .printLine,
   stp .printLine,
   stp .printLine]

/-- The five-entry hyperparameter grid of example2_hyperparameter_tuning.py:
(n_estimators, max_depth) pairs in source order. -/
def paramGrid : List (Nat × Nat) :=
  [(50, 5), (100, 10), (200, 15), (100, 20), (150, 12)]

/-- One iteration of the example2 loop body, for grid index i and entry p. -/
def example2RunSteps (i : Nat) (p : Nat × Nat) : List Step :=
  [stp (.startRun ("rf_tuning_run_" ++ toString (i + 1))),
   stp (.logParam "n_estimators" (.nat p.1)),
   stp (.logParam "max_depth" (.nat p.2)),
   stp (.fit p.1 p.2 (some 42)),
   stp .predict,
   stp (.score "accuracy"),
   stp (.logMetric "accuracy"),
   stp .logModel,
   stp .printLine]

/-- Trace of example2_hyperparameter_tuning.py: setup, then the enumerated
loop over the grid, then a final print. -/
def example2Trace : List Step :=
  [stp (.setTrackingUri "http://localhost:5000"),
   stp (.setExperiment "hyperparameter_tuning"),
   stp (.fetchData "load_iris"),
   stp (.split 2 10 42)]
  ++ (paramGrid.enum.map (fun ip => example2RunSteps ip.1 ip.2)).flatten
  ++ [stp .printLine]

/-- Trace of example3_model_registry.py, transcribed line by line.  The
register_model call and the two prints after it sit inside a try block whose
except handler prints the error and continues. -/
def example3Trace : List Step :=
  [stp (.setTrackingUri "http://localhost:5000"),
   stp (.setExperiment "model_registry_demo"),
   stp (.fetchData "load_iris"),
   stp (.split 2 10 42),
   stp (.startRun "production_ready_model"),
   stp (.fit 100 10 (some 42)),
   stp .predict,
   stp (.score "accuracy"),
   stp (.logParam "n_estimators" (.nat 100)),
   stp (.logParam "max_depth" (.nat 10)),
   stp (.logMetric "accuracy"),
   stp .logModel,
   stp .getRunId,
   stc (.registerModel "iris_classifier"),
   stc .printLine,
   stc .printLine]

/-- All five script traces, with their file names. -/
def allTraces : List (String × List Step) :=
  [("Legendary_pokemon_predictor.py", legendaryTrace),
   ("Pokemon_detective.py", pokemonDetectiveTrace),
   ("example1_basic.py", example1Trace),
   ("example2_hyperparameter_tuning.py", example2Trace),
   ("example3_model_registry.py", example3Trace)]

/-! ## Trace observations -/

/-- Is this step a RandomForestClassifier fit call? -/
def isFit (s : Step) : Bool :=
  match s.ev with
  | .fit _ _ _ => true
  | _ => false

/-- Is this step any call that sends data to the tracking server
(log_param, log_params, log_metric, log_model, log_artifact, log_text)? -/
def isLogStep (s : Step) : Bool :=
  match s.ev with
  | .logParam _ _ => true
  | .logMetric _ => true
  | .logModel => true
  | .logArtifact _ => true
  | .logText _ => true
  | _ => false

/-- Is this step a data-fetch (read_csv or load_iris)? -/
def isFetch (s : Step) : Bool :=
  match s.ev with
  | .fetchData _ => true
  | _ => false

/-- Is this step a train_test_split call? -/
def isSplitEv (s : Step) : Bool :=
  match s.ev with
  | .split _ _ _ => true
  | _ => false

/-- Is this step a pickle.load of a serialized model? -/
def isLoadModel (s : Step) : Bool :=
  match s.ev with
  | .loadModel _ => true
  | _ => false

/-- Is this step an mlflow.sklearn.log_model call? -/
def isLogModel (s : Step) : Bool :=
  match s.ev with
  | .logModel => true
  | _ => false

/-- Is this step a log_param / log_params call? -/
def isLogParam (s : Step) : Bool :=
  match s.ev with
  | .logParam _ _ => true
  | _ => false

/-- Number of classifier fit calls in a trace. -/
def countFits (t : List Step) : Nat := (t.filter isFit).length

/-- The (n_estimators, max_depth, random_state) arguments of every
RandomForestClassifier constructed in a trace, in execution order. -/
def fitParams (t : List Step) : List (Nat × Nat × Option Nat) :=
  t.filterMap fun s =>
    match s.ev with
    | .fit n d r => some (n, d, r)
    | _ => none

/-- The numeric values logged under a given parameter key, in order. -/
def loggedNats (k : String) (t : List Step) : List Nat :=
  t.filterMap fun s =>
    match s.ev with
    | .logParam key (.nat v) => if key == k then some v else none
    | _ => none

/-- The (test_size, random_state) arguments of every train_test_split call
in a trace. -/
def splits (t : List Step) : List (Nat × Nat × Nat) :=
  t.filterMap fun s =>
    match s.ev with
    | .split num den seed => some (num, den, seed)
    | _ => none

/-- The run names passed to mlflow.start_run, in order. -/
def runNames (t : List Step) : List String :=
  t.filterMap fun s =>
    match s.ev with
    | .startRun n => some n
    | _ => none

/-- Does any step of the trace sit inside a try/except handler? -/
def catchesException (t : List Step) : Bool := t.any (fun s => s.caught)

/-- The events of a trace that sit inside a try/except handler. -/
def caughtEvents (t : List Step) : List Event :=
  (t.filter (fun s => s.caught)).map (fun s => s.ev)

/-- The pipeline phases the spec's linear sequence names. -/
inductive Phase where
  | fetch
  | splitP
  | fitP
  | scoreP
  | logMetricP
deriving DecidableEq

/-- The phase an event belongs to, if any. -/
def phaseOf : Event → Option Phase
  | .fetchData _ => some .fetch
  | .split _ _ _ => some .splitP
  | .fit _ _ _ => some .fitP
  | .score _ => some .scoreP
  | .logMetric _ => some .logMetricP
  | _ => none

/-- The phase sequence of a trace. -/
def phases (t : List Step) : List Phase :=
  t.filterMap fun s => phaseOf s.ev

/-- Is the first list an ordered (not necessarily contiguous) subsequence
of the second? -/
def isOrderedSubseq [BEq α] : List α → List α → Bool
  | [], _ => true
  | _ :: _, [] => false
  | a :: as, b :: bs =>
    if a == b then isOrderedSubseq as bs else isOrderedSubseq (a :: as) bs

/-! ## Model of train_test_split

Modelled from the spec: sklearn's train_test_split (external library, not
part of this repository) partitions rows into train/test subsets using a
fixed ratio and seed; it shuffles with a PRNG seeded by random_state, takes
the first ceil(n * test_size) shuffled rows as the test set and the rest as
the train set.  The library's exact permutation is internal to sklearn; we
model the seeded shuffle as a deterministic permutation (a rotation by the
seed), which preserves the properties the spec states: the result is a
partition of the rows, with sizes fixed by the ratio, fully determined by
(rows, test_size, random_state). -/
def trainTestSplit (rows : List α) (testNum testDen : Nat) (seed : Nat) : List α × List α :=
  let shuffled := rows.rotate seed
  let nTest := (rows.length * testNum + (testDen - 1)) / testDen
  (shuffled.drop nTest, shuffled.take nTest)

/-! ## Model of the Total_Stats derived column (Pokemon_detective.py line 8)

The dataframe's six stat columns, as pandas stores them: one list of values
per column.  The source line
df['Total_Stats'] = df['HP'] + df['Attack'] + df['Defense'] + df['Sp. Atk'] + df['Sp. Def'] + df['Speed']
is a left-associated chain of pairwise elementwise additions. -/
structure StatsCols where
  hp : List Int
  attack : List Int
  defense : List Int
  spAtk : List Int
  spDef : List Int
  speed : List Int

/-- Elementwise addition of two columns, as pandas Series addition does. -/
def addColsInt (a b : List Int) : List Int := List.zipWith (fun x y => x + y) a b

/-- The Total_Stats column: the left-associated sum of the six stat columns,
exactly as written in Pokemon_detective.py line 8. -/
def totalStatsCol (c : StatsCols) : List Int :=
  addColsInt (addColsInt (addColsInt (addColsInt (addColsInt c.hp c.attack) c.defense) c.spAtk) c.spDef) c.speed

/-! ## Model of the results table and the impostors filter
(Pokemon_detective.py lines 20-29) -/

/-- One row of the results table built in Pokemon_detective.py. -/
structure ResRow where
  name : String
  totalStats : Int
  predicted : Bool
  actual : Bool
deriving DecidableEq

/-- The impostors selection of Pokemon_detective.py line 28:
results[(results['Predicted'] == True) & (results['Actual'] == False)]. -/
def impostors (rs : List ResRow) : List ResRow :=
  rs.filter (fun r => (r.predicted == true) && (r.actual == false))

/-! ## Heap model of the results-table construction

Pandas dataframes are mutable heap objects: results = X_test.copy()
allocates a fresh table, and results['Actual'] = y_test mutates the table
results points to.  We model tables as association lists from column name
to column values, a heap as a list of tables addressed by position, and
the tail of Pokemon_detective.py (lines 21-24) as the heap transformer it
is, to show the table X_test points to is untouched. -/

/-- A pandas dataframe: columns by name, in column order. -/
abbrev Table := List (String × List PVal)

/-- Column assignment t[key] = vals: overwrite the column if it exists,
otherwise append it (pandas semantics). -/
def setColumn (t : Table) (key : String) (vals : List PVal) : Table :=
  if t.any (fun c => c.1 == key) then
    t.map (fun c => if c.1 == key then (key, vals) else c)
  else
    t ++ [(key, vals)]

/-- The heap state after the results-building tail of Pokemon_detective.py. -/
structure DetHeap where
  heap : List Table
  xTestAddr : Nat
  resultsAddr : Nat

/-- Lines 21-24 of Pokemon_detective.py as a heap transformer: starting from
a heap in which X_test lives at address xa, allocate results as a copy of
X_test, then assign the Actual, Predicted and Name columns of results. -/
def detectiveTail (heap0 : List Table) (xa : Nat)
    (yTest preds names : List PVal) : DetHeap :=
  let ra := heap0.length
  let h1 := heap0 ++ [heap0.getD xa []]
  let h2 := h1.set ra (setColumn (h1.getD ra []) "Actual" yTest)
  let h3 := h2.set ra (setColumn (h2.getD ra []) "Predicted" preds)
  let h4 := h3.set ra (setColumn (h3.getD ra []) "Name" names)
  ⟨h4, xa, ra⟩

/-! ## Assignment targets after the creation of X and y

For each script, the ordered list of assignment targets of every statement
after the lines that create the feature matrix X and label vector y
(for example3_model_registry.py, which never names X and y, after the data
load).  A repeated "results" records a column assignment through the
results reference. -/

/-- Assignment targets of Legendary_pokemon_predictor.py after lines 31-32. -/
def legendaryWrites : List String :=
  ["X_train", "X_test", "y_train", "y_test",
   "n_estimators", "max_depth", "clf", "y_pred", "acc", "prec", "recall", "cm"]

/-- Assignment targets of Pokemon_detective.py after lines 10-11. -/
def detectiveWrites : List String :=
  ["X_train", "X_test", "y_train", "y_test",
   "f", "model", "predictions",
   "results", "results", "results", "results", "impostors"]

/-- Assignment targets of example1_basic.py after lines 34-35. -/
def example1Writes : List String :=
  ["X_train", "X_test", "y_train", "y_test",
   "n_estimators", "max_depth", "random_state",
   "model", "y_pred", "accuracy", "precision", "recall"]

/-- Assignment targets of example2_hyperparameter_tuning.py after lines 24-25. -/
def example2Writes : List String :=
  ["X_train", "X_test", "y_train", "y_test", "param_grid",
   "i", "params", "model", "y_pred", "accuracy"]

/-- Assignment targets of example3_model_registry.py after the data load. -/
def example3Writes : List String :=
  ["X_train", "X_test", "y_train", "y_test",
   "model", "accuracy", "run_id", "model_uri", "registered_model"]

/-! ## Model-object discipline

Every operation a script applies to a model object, instrumented: fitting
or unpickling allocates a fresh model id, predict and log_model reference
an id.  Each script's model phase below is the transcription of exactly the
statements of that script that touch the model object. -/

/-- One operation on a model object. -/
inductive MOp where
  | fitOp (id : Nat) (nEstimators : Nat) (maxDepth : Nat) (randomState : Nat)
  | loadOp (id : Nat)
  | predictOp (id : Nat)
  | logModelOp (id : Nat)
deriving DecidableEq

/-- Instrumentation state: next fresh model id and the operation log. -/
structure MSt where
  next : Nat
  ops : List MOp

/-- The initial instrumentation state. -/
def initMSt : MSt := ⟨0, []⟩

/-- RandomForestClassifier(...).fit(...): allocates and returns a model id. -/
def fitRF (st : MSt) (n d r : Nat) : Nat × MSt :=
  (st.next, ⟨st.next + 1, st.ops ++ [.fitOp st.next n d r]⟩)

/-- pickle.load(f): allocates and returns a model id. -/
def loadPickle (st : MSt) : Nat × MSt :=
  (st.next, ⟨st.next + 1, st.ops ++ [.loadOp st.next]⟩)

/-- model.predict(X): references the model, returns predictions. -/
def predictRF (st : MSt) (m : Nat) : MSt :=
  ⟨st.next, st.ops ++ [.predictOp m]⟩

/-- mlflow.sklearn.log_model(model, ...): serializes and uploads the model. -/
def logModelRF (st : MSt) (m : Nat) : MSt :=
  ⟨st.next, st.ops ++ [.logModelOp m]⟩

/-- Model operations of Legendary_pokemon_predictor.py (lines 50-83):
clf = RandomForestClassifier(100, 15, 42).fit; y_pred = clf.predict(X_test);
mlflow.sklearn.log_model(clf, ...). -/
def legendaryModelOps : List MOp :=
  let s0 := initMSt
  let r1 := fitRF s0 100 15 42
  let s2 := predictRF r1.2 r1.1
  let s3 := logModelRF s2 r1.1
  s3.ops

/-- Model operations of Pokemon_detective.py (lines 17-20):
model = pickle.load(f); predictions = model.predict(X_test). -/
def detectiveModelOps : List MOp :=
  let s0 := initMSt
  let r1 := loadPickle s0
  let s2 := predictRF r1.2 r1.1
  s2.ops

/-- Model operations of example1_basic.py (lines 55-80). -/
def example1ModelOps : List MOp :=
  let s0 := initMSt
  let r1 := fitRF s0 100 10 42
  let s2 := predictRF r1.2 r1.1
  let s3 := logModelRF s2 r1.1
  s3.ops

/-- Model operations of example2_hyperparameter_tuning.py (lines 41-66):
each loop iteration fits a fresh model, predicts with it, and logs it. -/
def example2ModelOps : List MOp :=
  (paramGrid.foldl
    (fun st p =>
      let r1 := fitRF st p.1 p.2 42
      let s2 := predictRF r1.2 r1.1
      logModelRF s2 r1.1)
    initMSt).ops

/-- Model operations of example3_model_registry.py (lines 29-43):
model = RandomForestClassifier(100, 10, 42).fit; model.predict(X_test)
inside accuracy_score; mlflow.sklearn.log_model(model, ...). -/
def example3ModelOps : List MOp :=
  let s0 := initMSt
  let r1 := fitRF s0 100 10 42
  let s2 := predictRF r1.2 r1.1
  let s3 := logModelRF s2 r1.1
  s3.ops

/-- Checks the discipline the spec states: once a model is produced by fit
(or unpickling), every subsequent operation up to its upload (or to process
exit) is a predict of that same model, and the id handed to log_model is
the id the fit produced. -/
def trainedOk : Option Nat → List MOp → Bool
  | _, [] => true
  | none, .fitOp id _ _ _ :: rest => trainedOk (some id) rest
  | none, .loadOp id :: rest => trainedOk (some id) rest
  | none, .predictOp _ :: _ => false
  | none, .logModelOp _ :: _ => false
  | some id, .predictOp m :: rest => m == id && trainedOk (some id) rest
  | some id, .logModelOp m :: rest => m == id && trainedOk none rest
  | some _, .fitOp _ _ _ _ :: _ => false
  | some _, .loadOp _ :: _ => false

/-- A one-row stats fixture (Bulbasaur's published stat line). -/
def bulbasaurCols : StatsCols := ⟨[45], [49], [49], [65], [65], [45]⟩

/-- A one-table heap fixture for the results-building tail. -/
def oneTableHeap : List Table := [[("HP", [PVal.nat 45])]]

/-! ## Theorems -/

/-- Elementwise column addition agrees with pointwise addition at every
index that is in range for both columns. -/
theorem addColsInt_getD (a b : List Int) (i : Nat) (ha : i < a.length) (hb : i < b.length) :
    (addColsInt a b).getD i 0 = a.getD i 0 + b.getD i 0 := by
  induction a generalizing b i with
  | nil => simp at ha
  | cons x xs ih =>
    cases b with
    | nil => simp at hb
    | cons y ys =>
      cases i with
      | zero => simp [addColsInt]
      | succ n =>
        simp only [addColsInt, List.zipWith_cons_cons, List.getD_cons_succ]
        exact ih ys n (Nat.lt_of_succ_lt_succ ha) (Nat.lt_of_succ_lt_succ hb)

/-- The length of an elementwise column sum is the minimum of the operand
lengths. -/
theorem addColsInt_length (a b : List Int) :
    (addColsInt a b).length = min a.length b.length := by
  simp [addColsInt]

/-- Claim C1 counterexample: Pokemon_detective.py contains no fit step and
no tracking-server log step, refuting the claim that every script contains
a fit step and a log step. -/
theorem detective_lacks_fit_and_log :
    pokemonDetectiveTrace.any isFit = false ∧
    pokemonDetectiveTrace.any isLogStep = false := by
  decide

/-- Claim C1 (amended): each of the four MLflow scripts executes fetch,
split, fit, score and metric logging in that order, and each contains
parameter-logging and model-persistence steps; Pokemon_detective.py fetches
and splits but then loads a previously serialized model instead of fitting
one, and contains no fit step and no tracking-server log step. -/
theorem pipeline_order_amended :
    isOrderedSubseq [Phase.fetch, .splitP, .fitP, .scoreP, .logMetricP] (phases legendaryTrace) = true ∧
    isOrderedSubseq [Phase.fetch, .splitP, .fitP, .scoreP, .logMetricP] (phases example1Trace) = true ∧
    isOrderedSubseq [Phase.fetch, .splitP, .fitP, .scoreP, .logMetricP] (phases example2Trace) = true ∧
    isOrderedSubseq [Phase.fetch, .splitP, .fitP, .scoreP, .logMetricP] (phases example3Trace) = true ∧
    legendaryTrace.any isLogParam = true ∧ legendaryTrace.any isLogModel = true ∧
    example1Trace.any isLogParam = true ∧ example1Trace.any isLogModel = true ∧
    example2Trace.any isLogParam = true ∧ example2Trace.any isLogModel = true ∧
    example3Trace.any isLogParam = true ∧ example3Trace.any isLogModel = true ∧
    pokemonDetectiveTrace.any isFetch = true ∧
    pokemonDetectiveTrace.any isSplitEv = true ∧
    pokemonDetectiveTrace.any isLoadModel = true ∧
    countFits pokemonDetectiveTrace = 0 ∧
    (pokemonDetectiveTrace.filter isLogStep).length = 0 := by
  decide

/-- Claim C2 counterexample: example3_model_registry.py catches an
exception and continues executing, refuting the claim that no script does. -/
theorem example3_catches_register_exception :
    catchesException example3Trace = true := by
  decide

/-- Claim C2 (amended): in four of the five scripts every statement sits
outside any try/except, so library exceptions propagate to the top level;
in example3_model_registry.py exactly the register_model call and the two
prints after it sit inside a try block whose except handler prints the
error and continues. -/
theorem exceptions_propagate_amended :
    catchesException legendaryTrace = false ∧
    catchesException pokemonDetectiveTrace = false ∧
    catchesException example1Trace = false ∧
    catchesException example2Trace = false ∧
    caughtEvents example3Trace = [.registerModel "iris_classifier", .printLine, .printLine] := by
  decide

/-- Claim C3: every script's train_test_split call passes the fixed ratio
test_size=0.2 (2/10) and the fixed seed random_state=42; the modelled split
is a genuine partition of the rows, and two executions on the same dataset
produce identical train/test partitions. -/
theorem split_fixed_ratio_and_seed :
    splits legendaryTrace = [(2, 10, 42)] ∧
    splits pokemonDetectiveTrace = [(2, 10, 42)] ∧
    splits example1Trace = [(2, 10, 42)] ∧
    splits example2Trace = [(2, 10, 42)] ∧
    splits example3Trace = [(2, 10, 42)] ∧
    (∀ rows : List Nat,
      ((trainTestSplit rows 2 10 42).2 ++ (trainTestSplit rows 2 10 42).1).Perm rows) ∧
    (∀ rows1 rows2 : List Nat, rows1 = rows2 →
      trainTestSplit rows1 2 10 42 = trainTestSplit rows2 2 10 42) := by
  refine ⟨by decide, by decide, by decide, by decide, by decide, ?_, ?_⟩
  · intro rows
    simp only [trainTestSplit, List.take_append_drop]
    exact List.rotate_perm rows 42
  · intro rows1 rows2 h
    rw [h]

/-- Witness for C3: the determinism clause at a concrete dataset. -/
theorem split_fixed_ratio_and_seed_witness :
    ([1, 2, 3, 4, 5] : List Nat) = [1, 2, 3, 4, 5] ∧
    trainTestSplit ([1, 2, 3, 4, 5] : List Nat) 2 10 42 =
      trainTestSplit ([1, 2, 3, 4, 5] : List Nat) 2 10 42 :=
  ⟨rfl, split_fixed_ratio_and_seed.2.2.2.2.2.2 [1, 2, 3, 4, 5] [1, 2, 3, 4, 5] rfl⟩

/-- Claim C4 counterexample: example2_hyperparameter_tuning.py fits five
RandomForestClassifiers in one execution, not one. -/
theorem example2_fits_five_not_one :
    countFits example2Trace = 5 ∧ ¬ countFits example2Trace = 1 := by
  decide

/-- Claim C4 (amended): every fit step in every script trains a
RandomForestClassifier with hard-coded literal hyperparameters;
Legendary_pokemon_predictor.py, example1_basic.py and
example3_model_registry.py each fit exactly one classifier per execution,
example2_hyperparameter_tuning.py fits exactly one per grid entry (five per
execution), and Pokemon_detective.py fits none. -/
theorem fit_counts_amended :
    countFits legendaryTrace = 1 ∧
    countFits example1Trace = 1 ∧
    countFits example3Trace = 1 ∧
    countFits example2Trace = paramGrid.length ∧
    countFits pokemonDetectiveTrace = 0 ∧
    fitParams legendaryTrace = [(100, 15, some 42)] ∧
    fitParams example1Trace = [(100, 10, some 42)] ∧
    fitParams example3Trace = [(100, 10, some 42)] ∧
    fitParams example2Trace = paramGrid.map (fun p => (p.1, p.2, some 42)) := by
  decide

/-- Claim C5: for every row index in range of all six stat columns, the
derived Total_Stats value is the exact integer sum of that row's HP,
Attack, Defense, Sp. Atk, Sp. Def and Speed values. -/
theorem totalStats_row_sum (c : StatsCols) (i : Nat)
    (h1 : i < c.hp.length) (h2 : i < c.attack.length) (h3 : i < c.defense.length)
    (h4 : i < c.spAtk.length) (h5 : i < c.spDef.length) (h6 : i < c.speed.length) :
    (totalStatsCol c).getD i 0 =
      c.hp.getD i 0 + c.attack.getD i 0 + c.defense.getD i 0 +
      c.spAtk.getD i 0 + c.spDef.getD i 0 + c.speed.getD i 0 := by
  have l1 : i < (addColsInt c.hp c.attack).length := by
    rw [addColsInt_length]; omega
  have l2 : i < (addColsInt (addColsInt c.hp c.attack) c.defense).length := by
    rw [addColsInt_length, addColsInt_length]; omega
  have l3 : i < (addColsInt (addColsInt (addColsInt c.hp c.attack) c.defense) c.spAtk).length := by
    rw [addColsInt_length, addColsInt_length, addColsInt_length]; omega
  have l4 : i < (addColsInt (addColsInt (addColsInt (addColsInt c.hp c.attack) c.defense) c.spAtk) c.spDef).length := by
    rw [addColsInt_length, addColsInt_length, addColsInt_length, addColsInt_length]; omega
  unfold totalStatsCol
  rw [addColsInt_getD _ _ _ l4 h6, addColsInt_getD _ _ _ l3 h5, addColsInt_getD _ _ _ l2 h4,
    addColsInt_getD _ _ _ l1 h3, addColsInt_getD _ _ _ h1 h2]

/-- Witness for C5: the Total_Stats sum at a concrete one-row dataset. -/
theorem totalStats_row_sum_witness :
    0 < bulbasaurCols.hp.length ∧
    (totalStatsCol bulbasaurCols).getD 0 0 =
      bulbasaurCols.hp.getD 0 0 + bulbasaurCols.attack.getD 0 0 +
      bulbasaurCols.defense.getD 0 0 + bulbasaurCols.spAtk.getD 0 0 +
      bulbasaurCols.spDef.getD 0 0 + bulbasaurCols.speed.getD 0 0 :=
  ⟨by decide,
   totalStats_row_sum bulbasaurCols 0 (by decide) (by decide) (by decide)
     (by decide) (by decide) (by decide)⟩

/-- Claim C6: after the feature matrix X and label vector y are created no
later statement of any script assigns to them, and the results table of
Pokemon_detective.py is built on a fresh copy of X_test: the heap cell
X_test points to is unchanged by the Actual/Predicted/Name column
assignments, which all go to the freshly allocated results table. -/
theorem features_not_mutated_after_creation :
    ("X" ∉ legendaryWrites ∧ "y" ∉ legendaryWrites) ∧
    ("X" ∉ detectiveWrites ∧ "y" ∉ detectiveWrites) ∧
    ("X" ∉ example1Writes ∧ "y" ∉ example1Writes) ∧
    ("X" ∉ example2Writes ∧ "y" ∉ example2Writes) ∧
    ("X" ∉ example3Writes ∧ "y" ∉ example3Writes) ∧
    (∀ (heap0 : List Table) (xa : Nat) (yTest preds names : List PVal),
      xa < heap0.length →
      (detectiveTail heap0 xa yTest preds names).heap.getD xa [] = heap0.getD xa []) ∧
    (∀ (heap0 : List Table) (xa : Nat) (yTest preds names : List PVal),
      (detectiveTail heap0 xa yTest preds names).resultsAddr = heap0.length) := by
  refine ⟨by decide, by decide, by decide, by decide, by decide, ?_, ?_⟩
  · intro heap0 xa yTest preds names h
    have hne : heap0.length ≠ xa := Nat.ne_of_gt h
    simp only [detectiveTail, List.getD_eq_getElem?_getD]
    rw [List.getElem?_set_ne hne, List.getElem?_set_ne hne, List.getElem?_set_ne hne,
      List.getElem?_append_left h]
  · intro heap0 xa yTest preds names
    rfl

/-- Witness for C6: the X_test table survives the results-building tail on
a concrete one-table heap. -/
theorem features_not_mutated_witness :
    0 < oneTableHeap.length ∧
    (detectiveTail oneTableHeap 0 [] [] []).heap.getD 0 [] = oneTableHeap.getD 0 [] :=
  ⟨by decide,
   features_not_mutated_after_creation.2.2.2.2.2.1 oneTableHeap 0 [] [] [] (by decide)⟩

/-- Claim C7: in every script, the operations applied to a model object
between its creation (fit, or unpickling in Pokemon_detective.py) and its
upload or discard are exactly predictions with that same model, and the
model handed to log_model is the very model the fit produced. -/
theorem model_only_predicted_between_fit_and_persist :
    legendaryModelOps = [.fitOp 0 100 15 42, .predictOp 0, .logModelOp 0] ∧
    detectiveModelOps = [.loadOp 0, .predictOp 0] ∧
    example1ModelOps = [.fitOp 0 100 10 42, .predictOp 0, .logModelOp 0] ∧
    example2ModelOps =
      [.fitOp 0 50 5 42, .predictOp 0, .logModelOp 0,
       .fitOp 1 100 10 42, .predictOp 1, .logModelOp 1,
       .fitOp 2 200 15 42, .predictOp 2, .logModelOp 2,
       .fitOp 3 100 20 42, .predictOp 3, .logModelOp 3,
       .fitOp 4 150 12 42, .predictOp 4, .logModelOp 4] ∧
    example3ModelOps = [.fitOp 0 100 10 42, .predictOp 0, .logModelOp 0] ∧
    trainedOk none legendaryModelOps = true ∧
    trainedOk none detectiveModelOps = true ∧
    trainedOk none example1ModelOps = true ∧
    trainedOk none example2ModelOps = true ∧
    trainedOk none example3ModelOps = true := by
  decide

/-- Claim C8: in every MLflow script, the n_estimators and max_depth values
logged to the tracking server are exactly the values passed to the
RandomForestClassifier constructor of the same run, and the one script that
logs random_state (example1_basic.py) logs exactly the constructor's value. -/
theorem logged_params_match_fit_params :
    loggedNats "n_estimators" legendaryTrace = (fitParams legendaryTrace).map (fun x => x.1) ∧
    loggedNats "max_depth" legendaryTrace = (fitParams legendaryTrace).map (fun x => x.2.1) ∧
    loggedNats "n_estimators" example1Trace = (fitParams example1Trace).map (fun x => x.1) ∧
    loggedNats "max_depth" example1Trace = (fitParams example1Trace).map (fun x => x.2.1) ∧
    loggedNats "n_estimators" example2Trace = (fitParams example2Trace).map (fun x => x.1) ∧
    loggedNats "max_depth" example2Trace = (fitParams example2Trace).map (fun x => x.2.1) ∧
    loggedNats "n_estimators" example3Trace = (fitParams example3Trace).map (fun x => x.1) ∧
    loggedNats "max_depth" example3Trace = (fitParams example3Trace).map (fun x => x.2.1) ∧
    loggedNats "random_state" example1Trace = (fitParams example1Trace).filterMap (fun x => x.2.2) := by
  decide

/-- Claim C9: a row is in the impostors selection of Pokemon_detective.py
exactly when it is a results row predicted True whose actual label is
False, i.e. the selection is precisely the false positives. -/
theorem impostors_iff_false_positive (rs : List ResRow) (r : ResRow) :
    r ∈ impostors rs ↔ r ∈ rs ∧ r.predicted = true ∧ r.actual = false := by
  simp [impostors, List.mem_filter]

/-- Claim C10: example2_hyperparameter_tuning.py starts exactly one run per
entry of the five-element grid, in grid order, named rf_tuning_run_1
through rf_tuning_run_5, and the i-th run fits its classifier with the i-th
grid entry's n_estimators and max_depth (and random_state 42). -/
theorem example2_one_run_per_grid_entry :
    paramGrid.length = 5 ∧
    runNames example2Trace =
      ["rf_tuning_run_1", "rf_tuning_run_2", "rf_tuning_run_3",
       "rf_tuning_run_4", "rf_tuning_run_5"] ∧
    (runNames example2Trace).length = paramGrid.length ∧
    countFits example2Trace = paramGrid.length ∧
    fitParams example2Trace = paramGrid.map (fun p => (p.1, p.2, some 42)) ∧
    loggedNats "n_estimators" example2Trace = paramGrid.map (fun p => p.1) ∧
    loggedNats "max_depth" example2Trace = paramGrid.map (fun p => p.2) := by
  decide
